import Mathlib

/-!
Shallow embedding of the client-health-monitor service (src/app.py).

Modelling choices:
* Timestamps are `Int` seconds (Python `datetime` differences via
  `.total_seconds()` become integer subtraction).
* Network effects are oracle parameters: each probe receives the outcome of
  its underlying system call as an `Except String _` value, the mail
  transport is a function `recipient → body → Except String Unit`, and the
  external `ipaddress` / `email_validator` libraries are abstract predicates
  passed to the validation helpers.
* The database session is a `List Client`; the cycle-final
  `db.session.commit()` outcome is a boolean oracle, with rollback restoring
  the pre-cycle list.
-/

namespace ClientHealth

/-- Tri-state probe status stored per channel (`Pending` only before the
first completed cycle), mirroring the string statuses of the `Client`
model in src/app.py. -/
inductive Status where
  | Pending
  | Online
  | Offline
deriving DecidableEq

/-- The `Client` database row of src/app.py: a tracked
(ip_address, alert_email) pair with its three channel statuses,
last-updated time and optional last-alert time. -/
structure Client where
  id : Nat
  ip_address : String
  alert_email : String
  ping_status : Status := Status.Pending
  ssh_status : Status := Status.Pending
  wifi_status : Status := Status.Pending
  last_updated : Int := 0
  last_alert_sent : Option Int := none
deriving DecidableEq

/-- `ALERT_COOLDOWN_SECONDS = int(os.getenv('ALERT_COOLDOWN_SECONDS', 3600))`:
the configured cooldown, defaulting to 3600 seconds when the environment
does not set it. -/
def alertCooldownSeconds (env : Option Int) : Int :=
  env.getD 3600

/-- `check_ping` of src/app.py: the `subprocess.call` outcome is the oracle;
return code 0 is success, any non-zero code or raised exception yields
`false`. -/
def check_ping (callResult : Except String Int) : Bool :=
  match callResult with
  | Except.ok code => code == 0
  | Except.error _ => false

/-- `check_ssh` of src/app.py: the `connect_ex` outcome on port 22 is the
oracle; result 0 is success, any other result or exception yields `false`. -/
def check_ssh (connectResult : Except String Int) : Bool :=
  match connectResult with
  | Except.ok result => result == 0
  | Except.error _ => false

/-- `check_wifi_agent` of src/app.py: the HTTP GET on port 8083 returns a
status code or raises; success iff the status is exactly 200, any error or
timeout yields `false`. -/
def check_wifi_agent (httpResult : Except String Int) : Bool :=
  match httpResult with
  | Except.ok statusCode => statusCode == 200
  | Except.error _ => false

/-- The 1-indexed issue enumeration built in `send_alert`. -/
def formatIssues : Nat → List String → String
  | _, [] => ""
  | i, issue :: rest => toString i ++ ". " ++ issue ++ "\n" ++ formatIssues (i + 1) rest

/-- Subject line built in `send_alert`. -/
def alertSubject (client_ip : String) : String :=
  "Client-Health: Services Down for " ++ client_ip

/-- Message body built in `send_alert` (zero-width space inserted after each
dot of the address, issues enumerated, fixed footer appended). -/
def alertBody (client_ip : String) (issue_list : List String) : String :=
  let display_ip := client_ip.replace "." (".\u200B")
  "The following services are down for client " ++ display_ip ++ ":\n\n"
    ++ formatIssues 1 issue_list ++ "\n"
    ++ "----------------------------------------\n"
    ++ "This is an automated email to report client health issues, "
    ++ "take appropriate action to avoid getting this message every hour."

/-- `send_alert` of src/app.py: formats the message and hands it to the mail
transport (SMTP connect, STARTTLS, login and send are all inside the `try`
and abstracted into the `transport` oracle); any raised error is caught and
logged, so the function always returns normally with no failure signal. -/
def send_alert (transport : String → String → Except String Unit)
    (client_ip recipient : String) (issue_list : List String) : Except String Unit :=
  let body := alertBody client_ip issue_list
  match transport recipient body with
  | Except.ok _ => Except.ok ()
  | Except.error _ => Except.ok ()

/-- One cycle's boolean verdicts of the three probes for one client. -/
structure ProbeResults where
  ping : Bool
  ssh : Bool
  wifi : Bool
deriving DecidableEq

/-- The issue list assembled in `update_statuses` (one description per
failing probe, in ping, ssh, wifi order). -/
def issuesFor (r : ProbeResults) : List String :=
  (if r.ping then [] else ["Ping Unreachable"])
    ++ (if r.ssh then [] else ["SSH Port 22 Closed"])
    ++ (if r.wifi then [] else ["WifiAgent API Unreachable"])

/-- Status mutation step of `update_statuses`: each boolean mapped to
Online/Offline into its own field, `last_updated` stamped with the cycle
time. -/
def probeStatuses (now : Int) (r : ProbeResults) (c : Client) : Client :=
  { c with
    ping_status := if r.ping then Status.Online else Status.Offline
    ssh_status := if r.ssh then Status.Online else Status.Offline
    wifi_status := if r.wifi then Status.Online else Status.Offline
    last_updated := now }

/-- `time_since` computation of `update_statuses`: elapsed seconds since the
last alert, or `cooldown + 1` when no alert was ever sent. -/
def timeSince (cooldown now : Int) (lastAlert : Option Int) : Int :=
  match lastAlert with
  | some t => now - t
  | none => cooldown + 1

/-- Observable outcome of processing one client in a cycle: the mutated row,
whether a dispatch was attempted, and what the dispatch returned to its
caller when attempted. -/
structure CycleStep where
  client : Client
  dispatched : Bool
  sendResult : Option (Except String Unit) := none

/-- The per-client body of `update_statuses`: run the three probes (their
verdicts are `r`), write statuses, build the issue list, then the alert
state machine — dispatch and stamp `last_alert_sent` when the cooldown has
elapsed (or no alert was ever sent), do nothing within the cooldown, and
clear `last_alert_sent` when there are no issues. -/
def processClient (transport : String → String → Except String Unit)
    (cooldown now : Int) (r : ProbeResults) (c : Client) : CycleStep :=
  let c1 := probeStatuses now r c
  match issuesFor r with
  | [] =>
    { client := { c1 with last_alert_sent := none }, dispatched := false }
  | issue :: rest =>
    if timeSince cooldown now c1.last_alert_sent > cooldown then
      { client := { c1 with last_alert_sent := some now }
        dispatched := true
        sendResult := some (send_alert transport c1.ip_address c1.alert_email (issue :: rest)) }
    else
      { client := c1, dispatched := false }

/-- One client of the cycle loop, with its `try`/`except`: the probing oracle
either yields the three verdicts or raises, and a raised exception is caught
and logged, leaving the row unmodified (the status assignments only happen
after all three probe calls returned). -/
def stepClient (transport : String → String → Except String Unit)
    (cooldown now : Int) (probe : Client → Except String ProbeResults)
    (c : Client) : Client :=
  match probe c with
  | Except.ok r => (processClient transport cooldown now r c).client
  | Except.error _ => c

/-- The cycle loop of `update_statuses` over every row, each processed
independently under its own exception guard. -/
def updateClients (transport : String → String → Except String Unit)
    (cooldown now : Int) (probe : Client → Except String ProbeResults)
    (clients : List Client) : List Client :=
  clients.map (stepClient transport cooldown now probe)

/-- `update_statuses` of src/app.py: process every row, then commit all
mutations in one `db.session.commit()`; if the commit raises, the session is
rolled back, so the pre-cycle rows stay in place, and the function still
returns (the next cycle runs unaffected). -/
def update_statuses (transport : String → String → Except String Unit)
    (cooldown now : Int) (probe : Client → Except String ProbeResults)
    (commitOk : Bool) (clients : List Client) : List Client :=
  let updated := updateClients transport cooldown now probe clients
  if commitOk then updated else clients

/-- The per-row JSON object of the `/api/clients` route. -/
structure ClientView where
  id : Nat
  ip : String
  email : String
  ping : Status
  ssh : Status
  wifi : Status
  last_updated : Int
  alert_active : Bool
deriving DecidableEq

/-- The `alert_active` computation of `get_clients`: true iff
`last_alert_sent` is set and strictly less than the cooldown has elapsed at
query time. -/
def alertActive (cooldown currentTime : Int) (c : Client) : Bool :=
  match c.last_alert_sent with
  | some t => currentTime - t < cooldown
  | none => false

/-- One row of the `get_clients` response. -/
def clientView (cooldown currentTime : Int) (c : Client) : ClientView :=
  { id := c.id
    ip := c.ip_address
    email := c.alert_email
    ping := c.ping_status
    ssh := c.ssh_status
    wifi := c.wifi_status
    last_updated := c.last_updated
    alert_active := alertActive cooldown currentTime c }

/-- `get_clients` of src/app.py: list every row with the derived
`alert_active` flag recomputed at query time. -/
def get_clients (cooldown currentTime : Int) (clients : List Client) : List ClientView :=
  clients.map (clientView cooldown currentTime)

/-- Python `str.strip()`: remove leading and trailing whitespace. -/
def strip (s : String) : String :=
  String.mk (((s.toList.dropWhile Char.isWhitespace).reverse.dropWhile Char.isWhitespace).reverse)

/-- `validate_ip_address` of src/app.py: empty or whitespace-only input is
rejected, otherwise the stripped string is checked by the `ipaddress`
library, abstracted as the predicate `isValidIP`. -/
def validate_ip_address (isValidIP : String → Bool) (ip_string : String) :
    Bool × Option String :=
  if (strip ip_string).isEmpty then
    (false, some "IP address cannot be empty")
  else if isValidIP (strip ip_string) then
    (true, none)
  else
    (false, some ("Invalid IP address format: " ++ strip ip_string))

/-- `validate_email_address` of src/app.py: empty or whitespace-only input is
rejected, otherwise the stripped string is checked by the `email_validator`
library, abstracted as `emailError` (an error message, or `none` when
valid). -/
def validate_email_address (emailError : String → Option String)
    (email_string : String) : Bool × Option String :=
  if (strip email_string).isEmpty then
    (false, some "Email address cannot be empty")
  else
    match emailError (strip email_string) with
    | none => (true, none)
    | some e => (false, some e)

/-- Outcome of the `add_client` route as seen by the user. -/
inductive AddResult where
  | validationError (msg : String)
  | duplicate
  | added (c : Client)
deriving DecidableEq

/-- `add_client` of src/app.py: trim both form fields; reject when either is
empty, when the IP fails `validate_ip_address` or the email fails
`validate_email_address`; report a duplicate when the exact (ip, email) pair
already exists; otherwise insert one new row with default `Pending`
statuses. Returns the outcome and the resulting table. -/
def add_client (isValidIP : String → Bool) (emailError : String → Option String)
    (nextId : Nat) (now : Int) (db : List Client) (ip_form email_form : String) :
    AddResult × List Client :=
  let ip := strip ip_form
  let email := strip email_form
  if ip.isEmpty || email.isEmpty then
    (AddResult.validationError "Both IP address and email are required", db)
  else if !(validate_ip_address isValidIP ip).1 then
    (AddResult.validationError ((validate_ip_address isValidIP ip).2.getD ""), db)
  else if !(validate_email_address emailError email).1 then
    (AddResult.validationError ((validate_email_address emailError email).2.getD ""), db)
  else if db.any (fun c => c.ip_address == ip && c.alert_email == email) then
    (AddResult.duplicate, db)
  else
    let new_client : Client := { id := nextId, ip_address := ip, alert_email := email,
                                 last_updated := now }
    (AddResult.added new_client, db ++ [new_client])

/-- The JSON payload of the `/health` route. -/
structure HealthReport where
  status : String
  statusCode : Nat
  database_status : String
  client_count : Nat
  scheduler_status : String
deriving DecidableEq

/-- `health_check` of src/app.py: overall status is healthy exactly when the
database count query succeeded; the response also reports the scheduler's
running state; HTTP 503 whenever unhealthy. -/
def health_check (db_healthy : Bool) (client_count : Nat)
    (scheduler_running : Bool) : HealthReport :=
  { status := if db_healthy then "healthy" else "unhealthy"
    statusCode := if db_healthy then 200 else 503
    database_status := if db_healthy then "up" else "down"
    client_count := client_count
    scheduler_status := if scheduler_running then "running" else "stopped" }

/-! Concrete sample inputs used to exercise the theorems. -/

/-- A mail transport whose underlying send always succeeds. -/
def okTransport : String → String → Except String Unit :=
  fun _ _ => Except.ok ()

/-- A mail transport whose underlying send always raises. -/
def failTransport : String → String → Except String Unit :=
  fun _ _ => Except.error "connection refused"

/-- A tracked entry whose last alert went out at time 5000. -/
def sampleClient : Client :=
  { id := 1, ip_address := "10.0.0.5", alert_email := "a@b.com",
    last_alert_sent := some 5000 }

/-- A second tracked entry with no alert history. -/
def sampleClient2 : Client :=
  { id := 2, ip_address := "10.0.0.6", alert_email := "c@d.com" }

/-- A probing oracle that raises on 10.0.0.5 and finds 10.0.0.6 healthy. -/
def sampleProbe : Client → Except String ProbeResults :=
  fun c =>
    if c.ip_address == "10.0.0.5" then Except.error "timeout"
    else Except.ok ⟨true, true, true⟩

/-! Helper lemmas about the embedding, shared by the claim theorems. -/

theorem probeStatuses_last_alert_sent (now : Int) (r : ProbeResults) (c : Client) :
    (probeStatuses now r c).last_alert_sent = c.last_alert_sent := rfl

theorem processClient_of_issues_nil (transport : String → String → Except String Unit)
    (cooldown now : Int) (r : ProbeResults) (c : Client) (hi : issuesFor r = []) :
    processClient transport cooldown now r c =
      { client := { probeStatuses now r c with last_alert_sent := none }
        dispatched := false
        sendResult := none } := by
  unfold processClient
  rw [hi]

theorem processClient_of_issues_cons (transport : String → String → Except String Unit)
    (cooldown now : Int) (r : ProbeResults) (c : Client) (issue : String)
    (rest : List String) (hi : issuesFor r = issue :: rest) :
    processClient transport cooldown now r c =
      if timeSince cooldown now c.last_alert_sent > cooldown then
        { client := { probeStatuses now r c with last_alert_sent := some now }
          dispatched := true
          sendResult := some (send_alert transport c.ip_address c.alert_email (issue :: rest)) }
      else
        { client := probeStatuses now r c, dispatched := false, sendResult := none } := by
  unfold processClient
  rw [hi]
  rfl

theorem issuesFor_ne_nil_elim (r : ProbeResults) (h : issuesFor r ≠ []) :
    ∃ issue rest, issuesFor r = issue :: rest := by
  cases hi : issuesFor r with
  | nil => exact absurd hi h
  | cons a as => exact ⟨a, as, rfl⟩

/-- Claim C3: when all three probes succeed in a cycle, the processed entry
ends with all three status fields Online and `last_alert_sent` absent
(cleared unconditionally, whatever its prior value), and no dispatch is
attempted. -/
theorem allProbesUp_statuses_online_alert_cleared
    (transport : String → String → Except String Unit) (cooldown now : Int) (c : Client) :
    (processClient transport cooldown now ⟨true, true, true⟩ c).client.ping_status = Status.Online
    ∧ (processClient transport cooldown now ⟨true, true, true⟩ c).client.ssh_status = Status.Online
    ∧ (processClient transport cooldown now ⟨true, true, true⟩ c).client.wifi_status = Status.Online
    ∧ (processClient transport cooldown now ⟨true, true, true⟩ c).client.last_alert_sent = none
    ∧ (processClient transport cooldown now ⟨true, true, true⟩ c).dispatched = false := by
  rw [processClient_of_issues_nil transport cooldown now ⟨true, true, true⟩ c rfl]
  exact ⟨rfl, rfl, rfl, rfl, rfl⟩

/-- Claim C4: a cycle processes every entry and then persists all mutations
in one commit; a failed commit leaves the pre-cycle rows visible (full
rollback of the cycle's writes), a successful commit makes exactly the
per-entry processed rows visible, and in either case the function returns
normally with the row count preserved. -/
theorem cycle_commit_atomic_rollback (transport : String → String → Except String Unit)
    (cooldown now : Int) (probe : Client → Except String ProbeResults)
    (clients : List Client) :
    update_statuses transport cooldown now probe false clients = clients
    ∧ update_statuses transport cooldown now probe true clients
        = updateClients transport cooldown now probe clients
    ∧ ∀ commitOk : Bool,
        (update_statuses transport cooldown now probe commitOk clients).length
          = clients.length := by
  refine ⟨rfl, rfl, fun commitOk => ?_⟩
  cases commitOk <;> simp [update_statuses, updateClients]

/-- Claim C9: the health endpoint's report is computed from both the
database reachability check and the scheduler's running state; whenever the
database is unreachable the overall status is degraded (unhealthy, HTTP
503), and when it is reachable the status is healthy (HTTP 200). -/
theorem health_endpoint_reports_storage_and_scheduler (n : Nat) (db sch : Bool) :
    (health_check false n sch).status = "unhealthy"
    ∧ (health_check false n sch).statusCode = 503
    ∧ (health_check true n sch).status = "healthy"
    ∧ (health_check true n sch).statusCode = 200
    ∧ (health_check db n sch).database_status = (if db then "up" else "down")
    ∧ (health_check db n sch).scheduler_status = (if sch then "running" else "stopped") :=
  ⟨rfl, rfl, rfl, rfl, rfl, rfl⟩

theorem send_alert_ok (transport : String → String → Except String Unit)
    (client_ip recipient : String) (issue_list : List String) :
    send_alert transport client_ip recipient issue_list = Except.ok () := by
  cases h : transport recipient (alertBody client_ip issue_list) <;> simp [send_alert, h]

/-- Claim C1: for an entry whose cycle finds a non-empty issues list, a
dispatch is attempted iff `last_alert_sent` is absent or strictly more than
the cooldown has elapsed since it; an attempted dispatch stamps
`last_alert_sent` with the cycle time, within the cooldown no dispatch
occurs and `last_alert_sent` is unchanged, and the configured cooldown
defaults to 3600 seconds. -/
theorem monitor_dispatch_iff_cooldown_elapsed
    (transport : String → String → Except String Unit) (cooldown now : Int)
    (r : ProbeResults) (c : Client) (h : issuesFor r ≠ []) :
    ((processClient transport cooldown now r c).dispatched = true
      ↔ c.last_alert_sent = none
        ∨ ∃ t, c.last_alert_sent = some t ∧ now - t > cooldown)
    ∧ ((processClient transport cooldown now r c).dispatched = true
      → (processClient transport cooldown now r c).client.last_alert_sent = some now)
    ∧ ((processClient transport cooldown now r c).dispatched = false
      → (processClient transport cooldown now r c).client.last_alert_sent = c.last_alert_sent)
    ∧ alertCooldownSeconds none = 3600 := by
  obtain ⟨issue, rest, hi⟩ := issuesFor_ne_nil_elim r h
  rw [processClient_of_issues_cons transport cooldown now r c issue rest hi]
  by_cases ht : timeSince cooldown now c.last_alert_sent > cooldown
  · rw [if_pos ht]
    refine ⟨⟨fun _ => ?_, fun _ => rfl⟩, fun _ => rfl, fun hfd => by simp at hfd, rfl⟩
    cases hl : c.last_alert_sent with
    | none => exact Or.inl rfl
    | some t =>
      refine Or.inr ⟨t, rfl, ?_⟩
      rw [hl] at ht
      simpa [timeSince] using ht
  · rw [if_neg ht]
    refine ⟨⟨fun htd => by simp at htd, fun hd => ?_⟩, fun htd => by simp at htd,
      fun _ => probeStatuses_last_alert_sent now r c, rfl⟩
    exfalso
    apply ht
    cases hd with
    | inl hnone =>
      rw [hnone]
      simp only [timeSince]
      omega
    | inr hex =>
      obtain ⟨t, hl, hgt⟩ := hex
      rw [hl]
      simpa [timeSince] using hgt

/-- Claim C2: the alert dispatcher catches every transport error and returns
normally with no distinguishable failure signal, the whole per-entry cycle
step is insensitive to the transport's behavior, and an attempted dispatch
stamps `last_alert_sent` with the cycle time whether or not the underlying
send succeeded. -/
theorem dispatcher_never_signals_failure
    (transport t2 : String → String → Except String Unit)
    (client_ip recipient : String) (issue_list : List String)
    (cooldown now : Int) (r : ProbeResults) (c : Client) :
    send_alert transport client_ip recipient issue_list = Except.ok ()
    ∧ processClient transport cooldown now r c = processClient t2 cooldown now r c
    ∧ ((processClient transport cooldown now r c).dispatched = true
      → (processClient transport cooldown now r c).client.last_alert_sent = some now) := by
  refine ⟨send_alert_ok transport client_ip recipient issue_list, ?_, ?_⟩
  · cases hi : issuesFor r with
    | nil =>
      rw [processClient_of_issues_nil transport cooldown now r c hi,
        processClient_of_issues_nil t2 cooldown now r c hi]
    | cons issue rest =>
      rw [processClient_of_issues_cons transport cooldown now r c issue rest hi,
        processClient_of_issues_cons t2 cooldown now r c issue rest hi]
      by_cases ht : timeSince cooldown now c.last_alert_sent > cooldown
      · rw [if_pos ht, if_pos ht, send_alert_ok, send_alert_ok]
      · rw [if_neg ht, if_neg ht]
  · cases hi : issuesFor r with
    | nil =>
      rw [processClient_of_issues_nil transport cooldown now r c hi]
      intro htd
      simp at htd
    | cons issue rest =>
      rw [processClient_of_issues_cons transport cooldown now r c issue rest hi]
      by_cases ht : timeSince cooldown now c.last_alert_sent > cooldown
      · rw [if_pos ht]
        intro _
        rfl
      · rw [if_neg ht]
        intro htd
        simp at htd

/-- Claim C6: every probe normalizes its underlying outcome to a boolean —
an exception or error yields `false`, a ping or connect result succeeds iff
the code is 0, an HTTP response succeeds iff the status is exactly 200 —
and the cycle writes each of the three status fields from its own probe's
verdict for every combination of verdicts, so no probe failure skips or
short-circuits the others. -/
theorem probes_normalized_and_independent (e : String) (code statusCode : Int)
    (transport : String → String → Except String Unit) (cooldown now : Int)
    (r : ProbeResults) (c : Client) :
    check_ping (Except.error e) = false
    ∧ check_ssh (Except.error e) = false
    ∧ check_wifi_agent (Except.error e) = false
    ∧ check_ping (Except.ok code) = (code == 0)
    ∧ check_ssh (Except.ok code) = (code == 0)
    ∧ check_wifi_agent (Except.ok statusCode) = (statusCode == 200)
    ∧ (processClient transport cooldown now r c).client.ping_status
        = (if r.ping then Status.Online else Status.Offline)
    ∧ (processClient transport cooldown now r c).client.ssh_status
        = (if r.ssh then Status.Online else Status.Offline)
    ∧ (processClient transport cooldown now r c).client.wifi_status
        = (if r.wifi then Status.Online else Status.Offline) := by
  refine ⟨rfl, rfl, rfl, rfl, rfl, rfl, ?_, ?_, ?_⟩ <;>
  · cases hi : issuesFor r with
    | nil =>
      rw [processClient_of_issues_nil transport cooldown now r c hi]
      rfl
    | cons issue rest =>
      rw [processClient_of_issues_cons transport cooldown now r c issue rest hi]
      by_cases ht : timeSince cooldown now c.last_alert_sent > cooldown
      · rw [if_pos ht]
        rfl
      · rw [if_neg ht]
        rfl

/-- Claim C10: at the exact cooldown boundary (elapsed time since
`last_alert_sent` equal to the cooldown) the two computations disagree: the
listing's `alert_active` is already false (it requires elapsed strictly
below the cooldown) while the monitor still suppresses dispatch for an
entry with issues (it requires elapsed strictly above the cooldown) and
leaves `last_alert_sent` unchanged. -/
theorem cooldown_boundary_neither_active_nor_dispatched
    (transport : String → String → Except String Unit) (cooldown t : Int)
    (r : ProbeResults) (c : Client)
    (hl : c.last_alert_sent = some t) (h : issuesFor r ≠ []) :
    alertActive cooldown (t + cooldown) c = false
    ∧ (processClient transport cooldown (t + cooldown) r c).dispatched = false
    ∧ (processClient transport cooldown (t + cooldown) r c).client.last_alert_sent
        = some t := by
  obtain ⟨issue, rest, hi⟩ := issuesFor_ne_nil_elim r h
  have hnot : ¬ timeSince cooldown (t + cooldown) c.last_alert_sent > cooldown := by
    rw [hl]
    simp only [timeSince]
    omega
  refine ⟨?_, ?_, ?_⟩
  · simp only [alertActive, hl, decide_eq_false_iff_not]
    omega
  · rw [processClient_of_issues_cons transport cooldown (t + cooldown) r c issue rest hi,
      if_neg hnot]
  · rw [processClient_of_issues_cons transport cooldown (t + cooldown) r c issue rest hi,
      if_neg hnot]
    exact hl

/-- Claim C5: each entry of a cycle is processed under its own exception
guard: in a committed cycle the row at any position is exactly the
independent per-entry step of that row — an exception there leaves just
that row unchanged, a successful probe yields the processed row — so one
entry's failure never aborts the cycle or keeps any other entry from being
processed and persisted, and the cycle always covers every row. -/
theorem entry_exception_isolated (transport : String → String → Except String Unit)
    (cooldown now : Int) (probe : Client → Except String ProbeResults)
    (clients : List Client) (i : Nat) (c : Client) (h : clients[i]? = some c) :
    (update_statuses transport cooldown now probe true clients)[i]?
        = some (stepClient transport cooldown now probe c)
    ∧ (∀ e, probe c = Except.error e → stepClient transport cooldown now probe c = c)
    ∧ (∀ r, probe c = Except.ok r →
        stepClient transport cooldown now probe c
          = (processClient transport cooldown now r c).client)
    ∧ (update_statuses transport cooldown now probe true clients).length
        = clients.length := by
  refine ⟨?_, ?_, ?_, ?_⟩
  · simp [update_statuses, updateClients, List.getElem?_map, h]
  · intro e he
    simp [stepClient, he]
  · intro r hr
    simp [stepClient, hr]
  · simp [update_statuses, updateClients]

/-- Claim C7: the listing returns every entry with `alert_active` recomputed
at query time — true exactly when `last_alert_sent` is present and strictly
less than the cooldown has elapsed — so once at least the cooldown has
elapsed, a fresh listing of the same stored row reports `alert_active`
false without any new probe cycle. -/
theorem listEntries_recomputes_alert_active (cooldown currentTime : Int)
    (clients : List Client) (i : Nat) (c : Client) (h : clients[i]? = some c) :
    (get_clients cooldown currentTime clients)[i]?
        = some (clientView cooldown currentTime c)
    ∧ (clientView cooldown currentTime c).alert_active = alertActive cooldown currentTime c
    ∧ (alertActive cooldown currentTime c = true
        ↔ ∃ t, c.last_alert_sent = some t ∧ currentTime - t < cooldown)
    ∧ (∀ t later, c.last_alert_sent = some t → cooldown ≤ later - t →
        alertActive cooldown later c = false) := by
  refine ⟨?_, rfl, ?_, ?_⟩
  · simp [get_clients, List.getElem?_map, h]
  · cases hl : c.last_alert_sent with
    | none => simp [alertActive, hl]
    | some t => simp [alertActive, hl]
  · intro t later hl hle
    simp only [alertActive, hl, decide_eq_false_iff_not]
    omega

/-- Claim C8: for stripped form inputs the add operation fails with a
validation error — creating nothing — when either field is empty, when the
host fails the IP-syntax check or when the email fails format validation;
it reports a duplicate (creating nothing) when the exact (host, email) pair
already exists; and otherwise — in particular for an already-tracked host
under a different email — it appends exactly one new row whose three
statuses are Pending and whose alert timestamp is absent. -/
theorem add_client_validates_and_inserts (isValidIP : String → Bool)
    (emailError : String → Option String) (nextId : Nat) (now : Int)
    (db : List Client) (ip email : String)
    (hip : strip ip = ip) (hem : strip email = email) :
    ((ip.isEmpty || email.isEmpty) = true →
      add_client isValidIP emailError nextId now db ip email
        = (AddResult.validationError "Both IP address and email are required", db))
    ∧ (ip.isEmpty = false → email.isEmpty = false → isValidIP ip = false →
      add_client isValidIP emailError nextId now db ip email
        = (AddResult.validationError ("Invalid IP address format: " ++ ip), db))
    ∧ (∀ msg, ip.isEmpty = false → email.isEmpty = false → isValidIP ip = true →
      emailError email = some msg →
      add_client isValidIP emailError nextId now db ip email
        = (AddResult.validationError msg, db))
    ∧ (ip.isEmpty = false → email.isEmpty = false → isValidIP ip = true →
      emailError email = none →
      db.any (fun c => c.ip_address == ip && c.alert_email == email) = true →
      add_client isValidIP emailError nextId now db ip email
        = (AddResult.duplicate, db))
    ∧ (ip.isEmpty = false → email.isEmpty = false → isValidIP ip = true →
      emailError email = none →
      db.any (fun c => c.ip_address == ip && c.alert_email == email) = false →
      add_client isValidIP emailError nextId now db ip email
        = (AddResult.added
             { id := nextId, ip_address := ip, alert_email := email, last_updated := now },
           db ++ [{ id := nextId, ip_address := ip, alert_email := email,
                    last_updated := now }]))
    ∧ ({ id := nextId, ip_address := ip, alert_email := email,
         last_updated := now } : Client).ping_status = Status.Pending
    ∧ ({ id := nextId, ip_address := ip, alert_email := email,
         last_updated := now } : Client).ssh_status = Status.Pending
    ∧ ({ id := nextId, ip_address := ip, alert_email := email,
         last_updated := now } : Client).wifi_status = Status.Pending
    ∧ ({ id := nextId, ip_address := ip, alert_email := email,
         last_updated := now } : Client).last_alert_sent = none := by
  refine ⟨?_, ?_, ?_, ?_, ?_, rfl, rfl, rfl, rfl⟩
  · intro h1
    simp [add_client, hip, hem, h1]
  · intro h1 h2 h3
    simp [add_client, validate_ip_address, hip, hem, h1, h2, h3]
  · intro msg h1 h2 h3 h4
    simp [add_client, validate_ip_address, validate_email_address, hip, hem, h1, h2, h3, h4]
  · intro h1 h2 h3 h4 h5
    simp [add_client, validate_ip_address, validate_email_address, hip, hem,
      h1, h2, h3, h4, h5]
  · intro h1 h2 h3 h4 h5
    simp [add_client, validate_ip_address, validate_email_address, hip, hem,
      h1, h2, h3, h4, h5]

/-- Concrete run of the cooldown gate: one failing probe, last alert 5000s
before a cycle at time 10000 with a 3600s cooldown, so a dispatch occurs. -/
theorem monitor_dispatch_iff_cooldown_elapsed_witness :
    issuesFor ⟨false, true, true⟩ ≠ []
    ∧ (((processClient okTransport 3600 10000 ⟨false, true, true⟩ sampleClient).dispatched = true
        ↔ sampleClient.last_alert_sent = none
          ∨ ∃ t, sampleClient.last_alert_sent = some t ∧ 10000 - t > 3600)
      ∧ ((processClient okTransport 3600 10000 ⟨false, true, true⟩ sampleClient).dispatched = true
        → (processClient okTransport 3600 10000 ⟨false, true, true⟩
            sampleClient).client.last_alert_sent = some 10000)
      ∧ ((processClient okTransport 3600 10000 ⟨false, true, true⟩ sampleClient).dispatched = false
        → (processClient okTransport 3600 10000 ⟨false, true, true⟩
            sampleClient).client.last_alert_sent = sampleClient.last_alert_sent)
      ∧ alertCooldownSeconds none = 3600) :=
  ⟨by decide,
    monitor_dispatch_iff_cooldown_elapsed okTransport 3600 10000 ⟨false, true, true⟩
      sampleClient (by decide)⟩

/-- Concrete run of the dispatcher with a failing transport: the caller sees
a normal return, the cycle step is the same as with a working transport,
and the dispatch still stamps the alert time. -/
theorem dispatcher_never_signals_failure_witness :
    send_alert failTransport "10.0.0.5" "a@b.com" ["Ping Unreachable"] = Except.ok ()
    ∧ processClient failTransport 3600 10000 ⟨false, true, true⟩ sampleClient
        = processClient okTransport 3600 10000 ⟨false, true, true⟩ sampleClient
    ∧ ((processClient failTransport 3600 10000 ⟨false, true, true⟩ sampleClient).dispatched = true
      → (processClient failTransport 3600 10000 ⟨false, true, true⟩
          sampleClient).client.last_alert_sent = some 10000) :=
  dispatcher_never_signals_failure failTransport okTransport "10.0.0.5" "a@b.com"
    ["Ping Unreachable"] 3600 10000 ⟨false, true, true⟩ sampleClient

/-- Concrete two-entry cycle where probing the first entry raises: the
second entry is still processed and persisted. -/
theorem entry_exception_isolated_witness :
    [sampleClient, sampleClient2][1]? = some sampleClient2
    ∧ ((update_statuses okTransport 3600 10000 sampleProbe true
          [sampleClient, sampleClient2])[1]?
        = some (stepClient okTransport 3600 10000 sampleProbe sampleClient2)
      ∧ (∀ e, sampleProbe sampleClient2 = Except.error e →
          stepClient okTransport 3600 10000 sampleProbe sampleClient2 = sampleClient2)
      ∧ (∀ r, sampleProbe sampleClient2 = Except.ok r →
          stepClient okTransport 3600 10000 sampleProbe sampleClient2
            = (processClient okTransport 3600 10000 r sampleClient2).client)
      ∧ (update_statuses okTransport 3600 10000 sampleProbe true
          [sampleClient, sampleClient2]).length = [sampleClient, sampleClient2].length) :=
  ⟨rfl,
    entry_exception_isolated okTransport 3600 10000 sampleProbe
      [sampleClient, sampleClient2] 1 sampleClient2 rfl⟩

/-- Concrete listing at query time 10000 of an entry last alerted at 5000
under a 3600s cooldown: the flag is recomputed from the stored row. -/
theorem listEntries_recomputes_alert_active_witness :
    [sampleClient][0]? = some sampleClient
    ∧ ((get_clients 3600 10000 [sampleClient])[0]?
        = some (clientView 3600 10000 sampleClient)
      ∧ (clientView 3600 10000 sampleClient).alert_active
          = alertActive 3600 10000 sampleClient
      ∧ (alertActive 3600 10000 sampleClient = true
          ↔ ∃ t, sampleClient.last_alert_sent = some t ∧ 10000 - t < 3600)
      ∧ (∀ t later, sampleClient.last_alert_sent = some t → 3600 ≤ later - t →
          alertActive 3600 later sampleClient = false)) :=
  ⟨rfl, listEntries_recomputes_alert_active 3600 10000 [sampleClient] 0 sampleClient rfl⟩

/-- Concrete add of an already-tracked host under a new email, against a
validator accepting exactly 10.0.0.5: the full case analysis of the add
operation at these inputs. -/
theorem add_client_validates_and_inserts_witness :
    strip "10.0.0.5" = "10.0.0.5"
    ∧ strip "c@d.com" = "c@d.com"
    ∧ ((("10.0.0.5".isEmpty || "c@d.com".isEmpty) = true →
        add_client (fun s => s == "10.0.0.5") (fun _ => none) 2 500 [sampleClient]
            "10.0.0.5" "c@d.com"
          = (AddResult.validationError "Both IP address and email are required",
             [sampleClient]))
      ∧ ("10.0.0.5".isEmpty = false → "c@d.com".isEmpty = false →
        (fun s => s == "10.0.0.5") "10.0.0.5" = false →
        add_client (fun s => s == "10.0.0.5") (fun _ => none) 2 500 [sampleClient]
            "10.0.0.5" "c@d.com"
          = (AddResult.validationError ("Invalid IP address format: " ++ "10.0.0.5"),
             [sampleClient]))
      ∧ (∀ msg, "10.0.0.5".isEmpty = false → "c@d.com".isEmpty = false →
        (fun s => s == "10.0.0.5") "10.0.0.5" = true →
        (fun _ => (none : Option String)) "c@d.com" = some msg →
        add_client (fun s => s == "10.0.0.5") (fun _ => none) 2 500 [sampleClient]
            "10.0.0.5" "c@d.com"
          = (AddResult.validationError msg, [sampleClient]))
      ∧ ("10.0.0.5".isEmpty = false → "c@d.com".isEmpty = false →
        (fun s => s == "10.0.0.5") "10.0.0.5" = true →
        (fun _ => (none : Option String)) "c@d.com" = none →
        [sampleClient].any
            (fun c => c.ip_address == "10.0.0.5" && c.alert_email == "c@d.com") = true →
        add_client (fun s => s == "10.0.0.5") (fun _ => none) 2 500 [sampleClient]
            "10.0.0.5" "c@d.com"
          = (AddResult.duplicate, [sampleClient]))
      ∧ ("10.0.0.5".isEmpty = false → "c@d.com".isEmpty = false →
        (fun s => s == "10.0.0.5") "10.0.0.5" = true →
        (fun _ => (none : Option String)) "c@d.com" = none →
        [sampleClient].any
            (fun c => c.ip_address == "10.0.0.5" && c.alert_email == "c@d.com") = false →
        add_client (fun s => s == "10.0.0.5") (fun _ => none) 2 500 [sampleClient]
            "10.0.0.5" "c@d.com"
          = (AddResult.added
               { id := 2, ip_address := "10.0.0.5", alert_email := "c@d.com",
                 last_updated := 500 },
             [sampleClient] ++ [{ id := 2, ip_address := "10.0.0.5",
                                  alert_email := "c@d.com", last_updated := 500 }]))
      ∧ ({ id := 2, ip_address := "10.0.0.5", alert_email := "c@d.com",
           last_updated := 500 } : Client).ping_status = Status.Pending
      ∧ ({ id := 2, ip_address := "10.0.0.5", alert_email := "c@d.com",
           last_updated := 500 } : Client).ssh_status = Status.Pending
      ∧ ({ id := 2, ip_address := "10.0.0.5", alert_email := "c@d.com",
           last_updated := 500 } : Client).wifi_status = Status.Pending
      ∧ ({ id := 2, ip_address := "10.0.0.5", alert_email := "c@d.com",
           last_updated := 500 } : Client).last_alert_sent = none) :=
  ⟨by decide, by decide,
    add_client_validates_and_inserts (fun s => s == "10.0.0.5") (fun _ => none) 2 500
      [sampleClient] "10.0.0.5" "c@d.com" (by decide) (by decide)⟩

/-- Concrete boundary instant: last alert at 5000, cooldown 3600, query and
cycle at 8600 with all probes failing — the alert window is already over
yet no new dispatch is allowed. -/
theorem cooldown_boundary_neither_active_nor_dispatched_witness :
    sampleClient.last_alert_sent = some 5000
    ∧ issuesFor ⟨false, false, false⟩ ≠ []
    ∧ (alertActive 3600 (5000 + 3600) sampleClient = false
      ∧ (processClient okTransport 3600 (5000 + 3600) ⟨false, false, false⟩
          sampleClient).dispatched = false
      ∧ (processClient okTransport 3600 (5000 + 3600) ⟨false, false, false⟩
          sampleClient).client.last_alert_sent = some 5000) :=
  ⟨rfl, by decide,
    cooldown_boundary_neither_active_nor_dispatched okTransport 3600 5000
      ⟨false, false, false⟩ sampleClient rfl (by decide)⟩

end ClientHealth
